import Mathlib

/-!
Shallow embedding of the Credit_Chain_Pro Solidity contracts
(CreditScoreRegistry, LenderPortal, DataMarketplace,
FederatedLearningCoordinator) and proofs about the frozen claims.

Modelling conventions:
* `Addr` is `Nat`; address(0) is `0`.  `bytes32` values are `Nat`, with
  `bytes32(0)` as `0`.
* Solidity mappings are Lean functions with pointwise update `updf`.
* A call is `Except Err result`: `.error` models a revert, which in the
  EVM undoes every write of the transaction, so an erroring call carries
  no state at all.
* `uint256` arithmetic is modelled on `Nat`; the 2^256 checked-overflow
  bound is unreachable for every quantity the claims touch.  The one
  place where a small machine width is reachable — the `uint8`
  multiplication `rating * 100` in `submitReview` — is modelled with its
  explicit 255 bound.
* `block.timestamp` is an explicit `now : Nat` argument; `msg.sender`
  an explicit `caller` argument; `msg.value` an explicit `fee` argument.
-/

abbrev Addr := Nat

/-- Revert reasons: a failed `require` with its message, a failed
`onlyRole` modifier, or a checked-arithmetic panic. -/
inductive Err where
  | require (msg : String)
  | missingRole
  | overflow
deriving DecidableEq, Repr

/-- Pointwise update of a mapping, as Solidity assignment to `m[k]`. -/
def updf {κ α : Type} [DecidableEq κ] (f : κ → α) (k : κ) (v : α) : κ → α :=
  fun x => if x = k then v else f x

@[simp] theorem updf_same {κ α : Type} [DecidableEq κ] (f : κ → α) (k : κ) (v : α) :
    updf f k v k = v := by
  simp [updf]

@[simp] theorem updf_other {κ α : Type} [DecidableEq κ] (f : κ → α) (k x : κ) (v : α)
    (h : x ≠ k) : updf f k v x = f x := by
  simp [updf, h]

/-! ## CreditScoreRegistry -/

structure CreditScore where
  score : Nat
  lastUpdated : Nat
  version : Nat
  isActive : Bool
  updatedBy : Addr
deriving DecidableEq, Repr

def CreditScore.empty : CreditScore := ⟨0, 0, 0, false, 0⟩

structure ScoreFactors where
  paymentHistory : Nat
  creditUtilization : Nat
  creditLength : Nat
  creditMix : Nat
  newCredit : Nat
deriving DecidableEq, Repr

def ScoreFactors.empty : ScoreFactors := ⟨0, 0, 0, 0, 0⟩

structure DataConsent where
  dataHash : Nat
  timestamp : Nat
  isActive : Bool
  expiryTime : Nat
  authorizedLenders : List Addr
deriving DecidableEq, Repr

def DataConsent.empty : DataConsent := ⟨0, 0, false, 0, []⟩

structure RegState where
  scores : Addr → CreditScore
  scoreFactors : Addr → ScoreFactors
  consents : Addr → DataConsent
  lenderAccess : Addr → Addr → Bool
  userNonces : Addr → Nat
  hasAdminRole : Addr → Bool
  hasOracleRole : Addr → Bool
  hasLenderRole : Addr → Bool
  paused : Bool

/-- Solidity `updateScore(user, score)` — modifiers `onlyRole(ORACLE_ROLE)`,
`whenNotPaused`; requires a nonzero user and `300 ≤ score ≤ 850`. -/
def RegState.updateScore (s : RegState) (caller user score now : Nat) :
    Except Err RegState :=
  if ¬ s.hasOracleRole caller then .error .missingRole
  else if s.paused then .error (.require "Pausable: paused")
  else if user = 0 then .error (.require "Invalid user address")
  else if ¬ (300 ≤ score ∧ score ≤ 850) then
    .error (.require "Score must be between 300-850")
  else
    let old := s.scores user
    let nw : CreditScore :=
      { score := score, lastUpdated := now, version := old.version + 1,
        isActive := true, updatedBy := caller }
    .ok { s with scores := updf s.scores user nw }

/-- Solidity `updateScoreFactors` — oracle only, not paused, all five values ≤ 100. -/
def RegState.updateScoreFactors (s : RegState) (caller user : Addr)
    (ph cu cl cm nc : Nat) : Except Err RegState :=
  if ¬ s.hasOracleRole caller then .error .missingRole
  else if s.paused then .error (.require "Pausable: paused")
  else if user = 0 then .error (.require "Invalid user address")
  else if ¬ (ph ≤ 100 ∧ cu ≤ 100 ∧ cl ≤ 100 ∧ cm ≤ 100 ∧ nc ≤ 100) then
    .error (.require "All factors must be 0-100")
  else
    .ok { s with scoreFactors := updf s.scoreFactors user ⟨ph, cu, cl, cm, nc⟩ }

/-- Solidity `getScore(user)` — view; callable by the user, a lender-role holder,
or an explicitly authorized lender, on an active score. -/
def RegState.getScore (s : RegState) (caller user : Addr) : Except Err Nat :=
  if user = 0 then .error (.require "Invalid user address")
  else if ¬ (caller = user ∨ s.hasLenderRole caller = true ∨
      s.lenderAccess user caller = true) then
    .error (.require "Unauthorized access")
  else if ¬ (s.scores user).isActive then .error (.require "No active score found")
  else .ok (s.scores user).score

/-- Solidity `updateConsent(dataHash, expiryTime)` — self-service, not paused,
nonzero hash, strictly future expiry; overwrites the consent record in
place, keeping the authorized-lender list. -/
def RegState.updateConsent (s : RegState) (caller : Addr)
    (dataHash expiryTime now : Nat) : Except Err RegState :=
  if s.paused then .error (.require "Pausable: paused")
  else if dataHash = 0 then .error (.require "Invalid data hash")
  else if ¬ (now < expiryTime) then .error (.require "Expiry must be in future")
  else
    let old := s.consents caller
    let nw : DataConsent :=
      { old with
        dataHash := dataHash, timestamp := now, isActive := true,
        expiryTime := expiryTime }
    .ok { s with
      consents := updf s.consents caller nw,
      userNonces := updf s.userNonces caller (s.userNonces caller + 1) }

/-- Solidity `grantLenderAccess(lender)` — self-service; fails if already granted;
sets the flag and appends the lender to the authorized list. -/
def RegState.grantLenderAccess (s : RegState) (caller lender : Addr) :
    Except Err RegState :=
  if s.paused then .error (.require "Pausable: paused")
  else if lender = 0 then .error (.require "Invalid lender address")
  else if s.lenderAccess caller lender then .error (.require "Access already granted")
  else
    let old := s.consents caller
    let nw : DataConsent := { old with authorizedLenders := old.authorizedLenders ++ [lender] }
    .ok { s with
      lenderAccess := updf s.lenderAccess caller (updf (s.lenderAccess caller) lender true),
      consents := updf s.consents caller nw }

/-- The swap-and-truncate loop body of `revokeLenderAccess`: find the
first occurrence of `x`, overwrite it with the last element of the list
(`lastEl`), or `none` when `x` is absent. -/
def swapWriteFirst (x lastEl : Addr) : List Addr → Option (List Addr)
  | [] => none
  | a :: rest =>
    if a = x then some (lastEl :: rest)
    else (swapWriteFirst x lastEl rest).map (a :: ·)

/-- Swap-and-truncate removal: overwrite the first occurrence of `x`
with the last element, then pop the last element; no-op when absent. -/
def removeSwap (l : List Addr) (x : Addr) : List Addr :=
  match swapWriteFirst x (l.getLastD x) l with
  | none => l
  | some l2 => l2.dropLast

/-- Solidity `revokeLenderAccess(lender)` — self-service; fails unless granted;
clears the flag and removes the lender via swap-and-truncate. -/
def RegState.revokeLenderAccess (s : RegState) (caller lender : Addr) :
    Except Err RegState :=
  if s.paused then .error (.require "Pausable: paused")
  else if lender = 0 then .error (.require "Invalid lender address")
  else if ¬ s.lenderAccess caller lender then .error (.require "Access not granted")
  else
    let old := s.consents caller
    let nw : DataConsent := { old with authorizedLenders := removeSwap old.authorizedLenders lender }
    .ok { s with
      lenderAccess := updf s.lenderAccess caller (updf (s.lenderAccess caller) lender false),
      consents := updf s.consents caller nw }

/-- The validating write loop of `batchUpdateScores`: any invalid entry
reverts the whole batch. -/
def batchScoresLoop (caller now : Nat) : RegState → List (Addr × Nat) → Except Err RegState
  | s, [] => .ok s
  | s, (u, sc) :: rest =>
    if u = 0 then .error (.require "Invalid user address")
    else if ¬ (300 ≤ sc ∧ sc ≤ 850) then .error (.require "Invalid score")
    else
      let old := s.scores u
      let nw : CreditScore :=
        { score := sc, lastUpdated := now, version := old.version + 1,
          isActive := true, updatedBy := caller }
      batchScoresLoop caller now { s with scores := updf s.scores u nw } rest

/-- Solidity `batchUpdateScores(users, newScores)` — oracle only, equal lengths,
at most 100 entries, then the validating loop. -/
def RegState.batchUpdateScores (s : RegState) (caller : Addr)
    (users : List Addr) (newScores : List Nat) (now : Nat) : Except Err RegState :=
  if ¬ s.hasOracleRole caller then .error .missingRole
  else if s.paused then .error (.require "Pausable: paused")
  else if ¬ (users.length = newScores.length) then
    .error (.require "Array length mismatch")
  else if ¬ (users.length ≤ 100) then .error (.require "Batch size too large")
  else batchScoresLoop caller now s (users.zip newScores)

/-- Solidity `pause()` — admin only; OpenZeppelin `_pause` requires not paused. -/
def RegState.pause (s : RegState) (caller : Addr) : Except Err RegState :=
  if ¬ s.hasAdminRole caller then .error .missingRole
  else if s.paused then .error (.require "Pausable: paused")
  else .ok { s with paused := true }

/-- Solidity `unpause()` — admin only; `_unpause` requires currently paused. -/
def RegState.unpause (s : RegState) (caller : Addr) : Except Err RegState :=
  if ¬ s.hasAdminRole caller then .error .missingRole
  else if ¬ s.paused then .error (.require "Pausable: not paused")
  else .ok { s with paused := false }

/-- Solidity `grantOracleRole(oracle)` — admin only. -/
def RegState.grantOracleRole (s : RegState) (caller oracle : Addr) :
    Except Err RegState :=
  if ¬ s.hasAdminRole caller then .error .missingRole
  else .ok { s with hasOracleRole := updf s.hasOracleRole oracle true }

/-- Solidity `grantLenderRole(lender)` — admin only. -/
def RegState.grantLenderRole (s : RegState) (caller lender : Addr) :
    Except Err RegState :=
  if ¬ s.hasAdminRole caller then .error .missingRole
  else .ok { s with hasLenderRole := updf s.hasLenderRole lender true }

/-! ## Sample registry state: admin and oracle at address 1 -/

def regSample : RegState where
  scores := fun _ => CreditScore.empty
  scoreFactors := fun _ => ScoreFactors.empty
  consents := fun _ => DataConsent.empty
  lenderAccess := fun _ _ => false
  userNonces := fun _ => 0
  hasAdminRole := fun a => a == 1
  hasOracleRole := fun a => a == 1
  hasLenderRole := fun _ => false
  paused := false

/-- C4 counterexample: the oracle at address 1 calls `updateScore` with
the in-range score 500 for the zero user identity.  The claim, which
conditions success only on the oracle role and the range, says this
succeeds; the code reverts with "Invalid user address". -/
theorem C4_counterexample :
    regSample.hasOracleRole 1 = true ∧ (300 ≤ 500 ∧ 500 ≤ 850) ∧
      regSample.updateScore 1 0 500 10 =
        .error (.require "Invalid user address") :=
  ⟨rfl, by norm_num, rfl⟩

/-- C4 (amended): `updateScore(u,s)` succeeds iff the caller holds the
oracle role, the registry is not paused, `u` is a nonzero identity, and
`300 ≤ s ≤ 850`; in every other case the call reverts (an `Except.error`,
which models an EVM revert leaving the entire state unchanged). -/
theorem C4_amended_updateScore_ok_iff (s : RegState) (caller user score now : Nat) :
    (∃ s2, s.updateScore caller user score now = .ok s2) ↔
      (s.hasOracleRole caller = true ∧ s.paused = false ∧ user ≠ 0 ∧
        300 ≤ score ∧ score ≤ 850) := by
  unfold RegState.updateScore
  split_ifs with h1 h2 h3 h4 <;> simp_all

/-! ## C10: registry operations and the lender-list invariant -/

/-- One mutating entry point of the CreditScoreRegistry, with its
arguments (including the caller and the block timestamp). -/
inductive RegOp where
  | updateScore (caller user score now : Nat)
  | updateScoreFactors (caller user ph cu cl cm nc : Nat)
  | updateConsent (caller dataHash expiryTime now : Nat)
  | grantLenderAccess (caller lender : Addr)
  | revokeLenderAccess (caller lender : Addr)
  | batchUpdateScores (caller : Addr) (users : List Addr) (newScores : List Nat) (now : Nat)
  | pause (caller : Addr)
  | unpause (caller : Addr)
  | grantOracleRole (caller oracle : Addr)
  | grantLenderRole (caller lender : Addr)

/-- Dispatch of one registry operation. -/
def regStep (s : RegState) : RegOp → Except Err RegState
  | .updateScore c u sc n => s.updateScore c u sc n
  | .updateScoreFactors c u a b d e f => s.updateScoreFactors c u a b d e f
  | .updateConsent c dh ex n => s.updateConsent c dh ex n
  | .grantLenderAccess c l => s.grantLenderAccess c l
  | .revokeLenderAccess c l => s.revokeLenderAccess c l
  | .batchUpdateScores c us ns n => s.batchUpdateScores c us ns n
  | .pause c => s.pause c
  | .unpause c => s.unpause c
  | .grantOracleRole c o => s.grantOracleRole c o
  | .grantLenderRole c l => s.grantLenderRole c l

/-- The lender-list invariant: for every user, the authorized-lender
list has no duplicate entries, and an address is in the list exactly
when the `lenderAccess` flag for that (user, lender) pair is set. -/
def lenderListInv (s : RegState) : Prop :=
  ∀ u : Addr, ((s.consents u).authorizedLenders).Nodup ∧
    ∀ a : Addr, (a ∈ (s.consents u).authorizedLenders ↔ s.lenderAccess u a = true)

theorem getLastD_append_singleton (l : List Addr) (a d : Addr) :
    (l ++ [a]).getLastD d = a := by
  simp

theorem swapWriteFirst_append (x e : Addr) (l1 l2 : List Addr) (h : x ∉ l1) :
    swapWriteFirst x e (l1 ++ x :: l2) = some (l1 ++ e :: l2) := by
  induction l1 with
  | nil => simp [swapWriteFirst]
  | cons a rest ih =>
    rw [List.mem_cons, not_or] at h
    have hax : ¬ (a = x) := fun hh => h.1 hh.symm
    simp [swapWriteFirst, hax, ih h.2]

/-- On a duplicate-free list containing `x`, swap-and-truncate removal
is a permutation of ordinary first-occurrence erasure. -/
theorem removeSwap_perm (l : List Addr) (x : Addr) (hn : l.Nodup) (hx : x ∈ l) :
    List.Perm (removeSwap l x) (l.erase x) := by
  obtain ⟨l1, l2, rfl⟩ := List.append_of_mem hx
  have hnm := List.nodup_middle.mp hn
  have hx12 : x ∉ l1 ++ l2 := (List.nodup_cons.mp hnm).1
  rw [List.mem_append, not_or] at hx12
  have herase : (l1 ++ x :: l2).erase x = l1 ++ l2 := by
    rw [List.erase_append_right _ hx12.1, List.erase_cons_head]
  rw [herase]
  rcases List.eq_nil_or_concat l2 with h2 | ⟨l2a, z, h2⟩
  · subst h2
    have hlast : ((l1 ++ [x]).getLastD x) = x := by simp
    unfold removeSwap
    rw [hlast, swapWriteFirst_append x x l1 [] hx12.1]
    simp [List.dropLast_concat]
  · rw [List.concat_eq_append] at h2
    subst h2
    have hassoc : l1 ++ x :: (l2a ++ [z]) = (l1 ++ x :: l2a) ++ [z] := by simp
    have hlast : ((l1 ++ x :: (l2a ++ [z])).getLastD x) = z := by
      rw [hassoc]; exact getLastD_append_singleton _ _ _
    unfold removeSwap
    rw [hlast, swapWriteFirst_append x z l1 (l2a ++ [z]) hx12.1]
    have hdrop : (l1 ++ z :: (l2a ++ [z])).dropLast = l1 ++ z :: l2a := by
      rw [show l1 ++ z :: (l2a ++ [z]) = (l1 ++ z :: l2a) ++ [z] by simp]
      exact List.dropLast_concat
    simp only [hdrop]
    exact List.Perm.append_left l1 ((List.perm_append_singleton z l2a).symm)

theorem removeSwap_nodup (l : List Addr) (x : Addr) (hn : l.Nodup) (hx : x ∈ l) :
    (removeSwap l x).Nodup :=
  ((removeSwap_perm l x hn hx).nodup_iff).mpr (hn.erase x)

theorem mem_removeSwap (l : List Addr) (x : Addr) (hn : l.Nodup) (hx : x ∈ l)
    (a : Addr) : a ∈ removeSwap l x ↔ (a ∈ l ∧ a ≠ x) := by
  rw [(removeSwap_perm l x hn hx).mem_iff, hn.mem_erase_iff]
  tauto

theorem batchScoresLoop_keeps (c n : Nat) :
    ∀ (pairs : List (Addr × Nat)) (s s2 : RegState),
      batchScoresLoop c n s pairs = .ok s2 →
      s2.consents = s.consents ∧ s2.lenderAccess = s.lenderAccess := by
  intro pairs
  induction pairs with
  | nil =>
    intro s s2 h
    unfold batchScoresLoop at h
    cases h
    exact ⟨rfl, rfl⟩
  | cons p rest ih =>
    intro s s2 h
    obtain ⟨u, sc⟩ := p
    unfold batchScoresLoop at h
    split_ifs at h
    have hres := ih _ s2 h
    exact hres

/-- C10: every mutating operation of the credit-score registry preserves
the invariant that a lender address appears in a per-user
`authorizedLenders` list iff the `lenderAccess` flag for that (user,
lender) pair is true, and appears at most once (the list is
duplicate-free); in particular `grantLenderAccess` after a
`revokeLenderAccess` (swap-and-truncate removal) never produces
duplicate list entries. -/
theorem C10_lender_list_invariant (s s2 : RegState) (op : RegOp)
    (hinv : lenderListInv s) (h : regStep s op = .ok s2) :
    lenderListInv s2 := by
  cases op with
  | updateScore c u sc n =>
    simp only [regStep] at h
    unfold RegState.updateScore at h
    split_ifs at h
    injection h with h
    subst h
    exact hinv
  | updateScoreFactors c u a b d e f =>
    simp only [regStep] at h
    unfold RegState.updateScoreFactors at h
    split_ifs at h
    injection h with h
    subst h
    exact hinv
  | updateConsent c dh ex n =>
    simp only [regStep] at h
    unfold RegState.updateConsent at h
    split_ifs at h
    injection h with h
    subst h
    intro u
    by_cases hu : u = c
    · subst hu
      simp only [updf_same]
      exact hinv u
    · simp only [updf, if_neg hu]
      exact hinv u
  | grantLenderAccess c l =>
    simp only [regStep] at h
    unfold RegState.grantLenderAccess at h
    split_ifs at h with h1 h2 h3
    injection h with h
    subst h
    have hflag : s.lenderAccess c l = false := by simpa using h3
    have hnotin : l ∉ (s.consents c).authorizedLenders := by
      intro hm
      have hc := ((hinv c).2 l).mp hm
      rw [hflag] at hc
      cases hc
    intro u
    by_cases hu : u = c
    · subst hu
      constructor
      · simp only [updf_same]
        refine List.Nodup.append (hinv u).1 (List.nodup_singleton l) ?_
        intro a ha hb
        rw [List.mem_singleton] at hb
        subst hb
        exact hnotin ha
      · intro a
        simp only [updf_same, List.mem_append, List.mem_singleton]
        rw [(hinv u).2 a]
        by_cases hal : a = l
        · subst hal
          simp [updf]
        · simp [updf, hal]
    · simp only [updf, if_neg hu]
      exact hinv u
  | revokeLenderAccess c l =>
    simp only [regStep] at h
    unfold RegState.revokeLenderAccess at h
    split_ifs at h with h1 h2 h3
    injection h with h
    subst h
    have hflag : s.lenderAccess c l = true := by simpa using h3
    have hmem : l ∈ (s.consents c).authorizedLenders := ((hinv c).2 l).mpr hflag
    have hnd := (hinv c).1
    intro u
    by_cases hu : u = c
    · subst hu
      constructor
      · simp only [updf_same]
        exact removeSwap_nodup _ _ hnd hmem
      · intro a
        simp only [updf_same]
        rw [mem_removeSwap _ _ hnd hmem a, (hinv u).2 a]
        by_cases hal : a = l
        · subst hal
          simp [updf, hflag]
        · simp [updf, hal]
    · simp only [updf, if_neg hu]
      exact hinv u
  | batchUpdateScores c us ns n =>
    simp only [regStep] at h
    unfold RegState.batchUpdateScores at h
    split_ifs at h
    obtain ⟨hc, ha⟩ := batchScoresLoop_keeps c n _ _ _ h
    intro u
    rw [hc, ha]
    exact hinv u
  | pause c =>
    simp only [regStep] at h
    unfold RegState.pause at h
    split_ifs at h
    injection h with h
    subst h
    exact hinv
  | unpause c =>
    simp only [regStep] at h
    unfold RegState.unpause at h
    split_ifs at h
    injection h with h
    subst h
    exact hinv
  | grantOracleRole c o =>
    simp only [regStep] at h
    unfold RegState.grantOracleRole at h
    split_ifs at h
    injection h with h
    subst h
    exact hinv
  | grantLenderRole c l =>
    simp only [regStep] at h
    unfold RegState.grantLenderRole at h
    split_ifs at h
    injection h with h
    subst h
    exact hinv

/-- C10 witness: the invariant holds of the sample registry state and is
preserved by a concrete `grantLenderAccess` call. -/
theorem C10_witness :
    ∃ s2, regStep regSample (RegOp.grantLenderAccess 1 2) = .ok s2 ∧
      lenderListInv s2 := by
  have hinv : lenderListInv regSample :=
    fun u => ⟨List.nodup_nil, fun a => by simp [regSample, DataConsent.empty]⟩
  exact ⟨_, rfl, C10_lender_list_invariant regSample _ (RegOp.grantLenderAccess 1 2) hinv rfl⟩

/-! ## FederatedLearningCoordinator -/

structure ModelUpdate where
  updateHash : Nat
  node : Addr
  timestamp : Nat
  round : Nat
  isValidated : Bool
  stake : Nat
  gradientHash : Nat
deriving DecidableEq, Repr

def ModelUpdate.empty : ModelUpdate := ⟨0, 0, 0, 0, false, 0, 0⟩

structure AggregatedModel where
  modelHash : Nat
  round : Nat
  timestamp : Nat
  aggregator : Addr
  participantCount : Nat
  isActive : Bool
  accuracy : Nat
deriving DecidableEq, Repr

def AggregatedModel.empty : AggregatedModel := ⟨0, 0, 0, 0, 0, false, 0⟩

structure TrainingRound where
  roundId : Nat
  startTime : Nat
  endTime : Nat
  minParticipants : Nat
  maxParticipants : Nat
  currentParticipants : Nat
  isActive : Bool
  rewardPool : Nat
  participants : Addr → Bool
  updates : Addr → ModelUpdate

def TrainingRound.empty : TrainingRound :=
  ⟨0, 0, 0, 0, 0, 0, false, 0, fun _ => false, fun _ => ModelUpdate.empty⟩

structure NodeInfo where
  nodeAddress : Addr
  reputation : Nat
  totalContributions : Nat
  successfulRounds : Nat
  totalRewards : Nat
  isActive : Bool
  lastActiveRound : Nat
deriving DecidableEq, Repr

def NodeInfo.empty : NodeInfo := ⟨0, 0, 0, 0, 0, false, 0⟩

structure FLState where
  modelUpdates : Addr → ModelUpdate
  models : Nat → AggregatedModel
  trainingRounds : Nat → TrainingRound
  nodes : Addr → NodeInfo
  currentRound : Nat
  totalRounds : Nat
  minStakeAmount : Nat
  rewardPerParticipant : Nat
  hasValidatorRole : Addr → Bool
  hasAggregatorRole : Addr → Bool

/-- Events of the coordinator that the claims observe. -/
inductive FLEvent where
  | nodeSlashed (node : Addr) (amount : Nat) (reason : String)
  | modelAggregated (round modelHash : Nat) (aggregator : Addr) (participantCount : Nat)
  | trainingRoundEnded (round participantCount modelHash : Nat)
  | rewardsDistributed (round totalRewards : Nat)
deriving DecidableEq, Repr

/-- Solidity `validateModelUpdate(node, isValid)` — validator only; operates on
the current round; requires that the node participated and that its
update is not yet validated.  A true verdict marks the update validated
and adds 10 reputation; a false verdict lowers reputation by 20 (floored
at 0) and emits a NodeSlashed event — it does not set `isValidated`. -/
def FLState.validateModelUpdate (s : FLState) (caller node : Addr) (isValid : Bool) :
    Except Err (FLState × List FLEvent) :=
  if ¬ s.hasValidatorRole caller then .error .missingRole
  else
    let round := s.trainingRounds s.currentRound
    if ¬ round.participants node then .error (.require "Node did not participate")
    else
      let update := round.updates node
      if update.isValidated then .error (.require "Already validated")
      else if isValid then
        let nu := { update with isValidated := true }
        let nround := { round with updates := updf round.updates node nu }
        let nnode := { s.nodes node with reputation := (s.nodes node).reputation + 10 }
        .ok ({ s with
          trainingRounds := updf s.trainingRounds s.currentRound nround,
          nodes := updf s.nodes node nnode }, [])
      else
        let rep := (s.nodes node).reputation
        let nnode := { s.nodes node with reputation := if rep > 20 then rep - 20 else 0 }
        .ok ({ s with nodes := updf s.nodes node nnode },
          [FLEvent.nodeSlashed node update.stake "Invalid model update"])

/-- Solidity `_distributeRewards(roundId)` — counts one valid participant per
loop iteration over `currentParticipants`, computes the per-node reward,
and emits a RewardsDistributed event when the pool and count are
nonzero.  The source performs no token transfers (the per-participant
payout is an unfilled stub), so the returned transfer list — the
payments the code actually makes — is empty. -/
def FLState.distributeRewards (s : FLState) (roundId : Nat) :
    List FLEvent × List (Addr × Nat) :=
  let round := s.trainingRounds roundId
  let totalRewards := round.rewardPool
  let validParticipants :=
    (List.range round.currentParticipants).foldl (fun acc _ => acc + 1) 0
  if 0 < validParticipants ∧ 0 < totalRewards then
    let _rewardPerNode := totalRewards / validParticipants
    ([FLEvent.rewardsDistributed roundId totalRewards], [])
  else ([], [])

/-- Solidity `aggregateModel(roundId, modelHash, accuracy)` — aggregator only;
requires an active round whose end time has strictly passed, at least
`minParticipants` participants, a nonzero model hash and accuracy
≤ 10000; records the aggregated model as active, deactivates the model
of round `roundId - 1` (when `roundId > 1`), closes the round,
distributes rewards, and advances the round counters. -/
def FLState.aggregateModel (s : FLState) (caller : Addr)
    (roundId modelHash accuracy now : Nat) :
    Except Err (FLState × List FLEvent × List (Addr × Nat)) :=
  if ¬ s.hasAggregatorRole caller then .error .missingRole
  else
    let round := s.trainingRounds roundId
    if ¬ round.isActive then .error (.require "Round not active")
    else if ¬ (round.endTime < now) then .error (.require "Round not ended")
    else if ¬ (round.minParticipants ≤ round.currentParticipants) then
      .error (.require "Insufficient participants")
    else if modelHash = 0 then .error (.require "Invalid model hash")
    else if ¬ (accuracy ≤ 10000) then .error (.require "Invalid accuracy")
    else
      let model : AggregatedModel :=
        { modelHash := modelHash, round := roundId, timestamp := now,
          aggregator := caller, participantCount := round.currentParticipants,
          isActive := true, accuracy := accuracy }
      let models1 := updf s.models roundId model
      let models2 :=
        if 1 < roundId then
          updf models1 (roundId - 1) { models1 (roundId - 1) with isActive := false }
        else models1
      let nround : TrainingRound := { round with isActive := false }
      let s1 := { s with
        models := models2,
        trainingRounds := updf s.trainingRounds roundId nround }
      let evtr := s1.distributeRewards roundId
      let s2 := { s1 with
        currentRound := s.currentRound + 1,
        totalRounds := s.totalRounds + 1 }
      .ok (s2,
        [FLEvent.modelAggregated roundId modelHash caller round.currentParticipants,
         FLEvent.trainingRoundEnded roundId round.currentParticipants modelHash] ++ evtr.1,
        evtr.2)

/-! ## Sample coordinator states -/

def flRound1 : TrainingRound where
  roundId := 1
  startTime := 0
  endTime := 100
  minParticipants := 1
  maxParticipants := 10
  currentParticipants := 1
  isActive := true
  rewardPool := 0
  participants := fun a => a == 7
  updates := fun a => if a == 7 then ⟨11, 7, 5, 1, false, 50, 12⟩ else ModelUpdate.empty

def flSample : FLState where
  modelUpdates := fun _ => ModelUpdate.empty
  models := fun _ => AggregatedModel.empty
  trainingRounds := fun r => if r == 1 then flRound1 else TrainingRound.empty
  nodes := fun a => if a == 7 then ⟨7, 100, 1, 0, 0, true, 1⟩ else NodeInfo.empty
  currentRound := 1
  totalRounds := 0
  minStakeAmount := 10
  rewardPerParticipant := 0
  hasValidatorRole := fun a => a == 5
  hasAggregatorRole := fun a => a == 9

/-- C2 counterexample: validator 5 rejects the update of participating
node 7 twice in the same round.  The first false-verdict call leaves
`isValidated` false, so the second call succeeds instead of failing with
a state error, and the reputation changes twice (100 → 80 → 60). -/
theorem C2_counterexample :
    ∃ r1, flSample.validateModelUpdate 5 7 false = .ok r1 ∧
      (r1.1.nodes 7).reputation = 80 ∧
      ∃ r2, r1.1.validateModelUpdate 5 7 false = .ok r2 ∧
        (r2.1.nodes 7).reputation = 60 :=
  ⟨_, rfl, rfl, _, rfl, rfl⟩

/-- C2 (amended): for the current round, a participating node and a
not-yet-validated update, a second `validateModelUpdate` for the same
(round, node) pair fails with the "Already validated" state error — and
the reputation changes exactly once, by +10 — only when the first
verdict was true.  After a false first verdict the update remains
unvalidated, so a second call succeeds for either verdict, and a second
false verdict slashes the reputation a second time. -/
theorem C2_amended_validateModelUpdate (s : FLState) (caller node : Addr)
    (hrole : s.hasValidatorRole caller = true)
    (hpart : (s.trainingRounds s.currentRound).participants node = true)
    (hnv : ((s.trainingRounds s.currentRound).updates node).isValidated = false) :
    (∃ r, s.validateModelUpdate caller node true = .ok r) ∧
    (∀ s1 ev1, s.validateModelUpdate caller node true = .ok (s1, ev1) →
      (s1.nodes node).reputation = (s.nodes node).reputation + 10 ∧
      ∀ verdict, s1.validateModelUpdate caller node verdict =
        .error (.require "Already validated")) ∧
    (∃ r, s.validateModelUpdate caller node false = .ok r) ∧
    (∀ s1 ev1, s.validateModelUpdate caller node false = .ok (s1, ev1) →
      (s1.nodes node).reputation =
        (if 20 < (s.nodes node).reputation then (s.nodes node).reputation - 20 else 0) ∧
      ∀ verdict, ∃ r2, s1.validateModelUpdate caller node verdict = .ok r2) := by
  refine ⟨?_, ?_, ?_, ?_⟩
  · cases hres : s.validateModelUpdate caller node true with
    | ok r => exact ⟨r, rfl⟩
    | error e =>
      unfold FLState.validateModelUpdate at hres
      simp [hrole, hpart, hnv] at hres
  · intro s1 ev1 h
    unfold FLState.validateModelUpdate at h
    simp [hrole, hpart, hnv] at h
    obtain ⟨rfl, rfl⟩ := h
    constructor
    · simp [updf_same]
    · intro verdict
      unfold FLState.validateModelUpdate
      simp [hrole, hpart, updf_same]
  · cases hres : s.validateModelUpdate caller node false with
    | ok r => exact ⟨r, rfl⟩
    | error e =>
      unfold FLState.validateModelUpdate at hres
      simp [hrole, hpart, hnv] at hres
  · intro s1 ev1 h
    unfold FLState.validateModelUpdate at h
    simp [hrole, hpart, hnv] at h
    obtain ⟨rfl, rfl⟩ := h
    constructor
    · simp [updf_same]
    · intro verdict
      cases hres2 : FLState.validateModelUpdate _ caller node verdict with
      | ok r2 => exact ⟨r2, rfl⟩
      | error e =>
        unfold FLState.validateModelUpdate at hres2
        cases verdict <;> simp [hrole, hpart, hnv] at hres2

/-- C2 witness: the hypotheses hold at the sample state, and the first
true-verdict validation there succeeds. -/
theorem C2_witness :
    flSample.hasValidatorRole 5 = true ∧
    (flSample.trainingRounds flSample.currentRound).participants 7 = true ∧
    ((flSample.trainingRounds flSample.currentRound).updates 7).isValidated = false ∧
    (∃ r, flSample.validateModelUpdate 5 7 true = .ok r) :=
  ⟨rfl, rfl, rfl, (C2_amended_validateModelUpdate flSample 5 7 rfl rfl rfl).1⟩

theorem active_unique_after_deactivation (ms : Nat → AggregatedModel)
    (roundId : Nat) (model : AggregatedModel)
    (hprev : ∀ k, (ms k).isActive = true → k + 1 = roundId ∧ 1 ≤ k) :
    ∀ j, ((if 1 < roundId then
        updf (updf ms roundId model) (roundId - 1)
          ({ updf ms roundId model (roundId - 1) with isActive := false })
      else updf ms roundId model) j).isActive = true → j = roundId := by
  intro j hj
  by_cases hjr : j = roundId
  · exact hjr
  · exfalso
    by_cases h1r : 1 < roundId
    · rw [if_pos h1r] at hj
      by_cases hj1 : j = roundId - 1
      · subst hj1
        rw [updf_same] at hj
        simp at hj
      · rw [updf_other _ _ _ _ hj1, updf_other _ _ _ _ hjr] at hj
        obtain ⟨ha, hb⟩ := hprev j hj
        omega
    · rw [if_neg h1r] at hj
      rw [updf_other _ _ _ _ hjr] at hj
      obtain ⟨ha, hb⟩ := hprev j hj
      omega

/-- C5: with the aggregator role on an active round, `aggregateModel`
fails with "Round not ended" whenever the current time has not passed
the end time of the round; fails with "Insufficient participants" after the
end when the participant count is below the minimum; and succeeds when
the count equals the minimum (nonzero model hash, accuracy ≤ 10000),
activating the new model and deactivating the previously active one, so
that afterwards at most one aggregated model is active. -/
theorem C5_aggregateModel_lifecycle (s : FLState) (caller : Addr)
    (roundId modelHash accuracy : Nat)
    (hrole : s.hasAggregatorRole caller = true)
    (hactive : (s.trainingRounds roundId).isActive = true) :
    (∀ now, now ≤ (s.trainingRounds roundId).endTime →
      s.aggregateModel caller roundId modelHash accuracy now =
        .error (.require "Round not ended")) ∧
    (∀ now, (s.trainingRounds roundId).endTime < now →
      (s.trainingRounds roundId).currentParticipants <
        (s.trainingRounds roundId).minParticipants →
      s.aggregateModel caller roundId modelHash accuracy now =
        .error (.require "Insufficient participants")) ∧
    (∀ now, (s.trainingRounds roundId).endTime < now →
      (s.trainingRounds roundId).currentParticipants =
        (s.trainingRounds roundId).minParticipants →
      modelHash ≠ 0 → accuracy ≤ 10000 →
      (∀ k, (s.models k).isActive = true → k + 1 = roundId ∧ 1 ≤ k) →
      ∃ r, s.aggregateModel caller roundId modelHash accuracy now = .ok r ∧
        (r.1.models roundId).isActive = true ∧
        ∀ j k, (r.1.models j).isActive = true →
          (r.1.models k).isActive = true → j = k) := by
  refine ⟨?_, ?_, ?_⟩
  · intro now hnow
    unfold FLState.aggregateModel
    simp [hrole, hactive, Nat.not_lt.mpr hnow]
  · intro now hnow hlt
    unfold FLState.aggregateModel
    simp [hrole, hactive, hnow, Nat.not_le.mpr hlt]
  · intro now hnow heq hmh hacc hprev
    have hge : (s.trainingRounds roundId).minParticipants ≤
        (s.trainingRounds roundId).currentParticipants := le_of_eq heq.symm
    cases hres : s.aggregateModel caller roundId modelHash accuracy now with
    | error e =>
      unfold FLState.aggregateModel at hres
      simp [hrole, hactive, hnow, hge, hmh, hacc] at hres
    | ok r =>
      refine ⟨r, rfl, ?_, ?_⟩
      all_goals
        unfold FLState.aggregateModel at hres
        simp [hrole, hactive, hnow, hge, hmh, hacc] at hres
        subst hres
      · by_cases h1r : 1 < roundId
        · have hne : roundId ≠ roundId - 1 := by omega
          simp [h1r, updf, hne]
        · simp [h1r, updf]
      · intro j k hj hk
        have hj2 := active_unique_after_deactivation s.models roundId _ hprev j hj
        have hk2 := active_unique_after_deactivation s.models roundId _ hprev k hk
        rw [hj2, hk2]

/-- C5 witness: at the sample state (round 1 active, ends at 100, one of
one required participants), aggregation at time 50 fails with "Round not
ended" and at time 200 succeeds leaving exactly one active model. -/
theorem C5_witness :
    flSample.hasAggregatorRole 9 = true ∧
    (flSample.trainingRounds 1).isActive = true ∧
    flSample.aggregateModel 9 1 3 9000 50 = .error (.require "Round not ended") ∧
    (∃ r, flSample.aggregateModel 9 1 3 9000 200 = .ok r ∧
      (r.1.models 1).isActive = true ∧
      ∀ j k, (r.1.models j).isActive = true →
        (r.1.models k).isActive = true → j = k) := by
  have h := C5_aggregateModel_lifecycle flSample 9 1 3 9000 rfl rfl
  refine ⟨rfl, rfl, h.1 50 (by decide), ?_⟩
  refine h.2.2 200 (by decide) rfl (by norm_num) (by norm_num) ?_
  intro k hk
  exact absurd hk (by simp [flSample, AggregatedModel.empty])

/-! ## C9: reward distribution at aggregation -/

def flRewardRound : TrainingRound where
  roundId := 1
  startTime := 0
  endTime := 100
  minParticipants := 4
  maxParticipants := 10
  currentParticipants := 4
  isActive := true
  rewardPool := 100
  participants := fun a => a == 21 || a == 22 || a == 23 || a == 24
  updates := fun _ => ModelUpdate.empty

def flRewardState : FLState where
  modelUpdates := fun _ => ModelUpdate.empty
  models := fun _ => AggregatedModel.empty
  trainingRounds := fun r => if r == 1 then flRewardRound else TrainingRound.empty
  nodes := fun _ => NodeInfo.empty
  currentRound := 1
  totalRounds := 0
  minStakeAmount := 10
  rewardPerParticipant := 0
  hasValidatorRole := fun a => a == 5
  hasAggregatorRole := fun a => a == 9

/-- C9: aggregating a round holding a reward pool of 100 with 4 recorded
participants succeeds, the equal share is 100/4 = 25 and a
RewardsDistributed event is emitted — but the list of token transfers
the code performs is empty: no participant receives an individual
payout (`_distributeRewards` only computes the share and emits the
event). -/
theorem C9_no_reward_transfers :
    ∃ r, flRewardState.aggregateModel 9 1 3 9000 200 = .ok r ∧
      (flRewardState.trainingRounds 1).rewardPool = 100 ∧
      (r.1.models 1).participantCount = 4 ∧
      (flRewardState.trainingRounds 1).rewardPool /
        (r.1.models 1).participantCount = 25 ∧
      r.2.1 = [FLEvent.modelAggregated 1 3 9 4, FLEvent.trainingRoundEnded 1 4 3,
               FLEvent.rewardsDistributed 1 100] ∧
      r.2.2 = ([] : List (Addr × Nat)) :=
  ⟨_, rfl, rfl, rfl, rfl, rfl, rfl⟩

/-! ## DataMarketplace -/

structure DataProduct where
  productId : Nat
  seller : Addr
  name : String
  description : String
  price : Nat
  dataHash : Nat
  isActive : Bool
  totalSales : Nat
  rating : Nat
  reviewCount : Nat
  createdAt : Nat
  features : List String
  category : String
deriving DecidableEq, Repr

def DataProduct.empty : DataProduct :=
  ⟨0, 0, "", "", 0, 0, false, 0, 0, 0, 0, [], ""⟩

structure Purchase where
  purchaseId : Nat
  productId : Nat
  buyer : Addr
  seller : Addr
  price : Nat
  timestamp : Nat
  isCompleted : Bool
  accessKey : Nat
deriving DecidableEq, Repr

def Purchase.empty : Purchase := ⟨0, 0, 0, 0, 0, 0, false, 0⟩

structure Review where
  reviewer : Addr
  productId : Nat
  rating : Nat
  comment : String
  timestamp : Nat
  isVerified : Bool
deriving DecidableEq, Repr

structure MarketState where
  products : Nat → DataProduct
  purchases : Nat → Purchase
  productReviews : Nat → List Review
  userPurchases : Addr → List Nat
  sellerProducts : Addr → List Nat
  hasPurchased : Addr → Nat → Bool
  nextProductId : Nat
  nextPurchaseId : Nat
  platformFeePercent : Nat
  feeRecipient : Addr
  tokenBalance : Addr → Nat
  tokenAllowance : Addr → Nat

/-- ERC20 `transferFrom(from, to, amount)` issued with the marketplace
as spender: requires the allowance granted to the marketplace and a
sufficient balance, deducts both, and credits the recipient. -/
def MarketState.transferFrom (s : MarketState) (frm dst amount : Nat) :
    Except Err MarketState :=
  if amount ≤ s.tokenAllowance frm ∧ amount ≤ s.tokenBalance frm then
    let afterFrm := updf s.tokenBalance frm (s.tokenBalance frm - amount)
    .ok { s with
      tokenAllowance := updf s.tokenAllowance frm (s.tokenAllowance frm - amount),
      tokenBalance := updf afterFrm dst (afterFrm dst + amount) }
  else .error (.require "ERC20: transfer failed")

/-- keccak256 over (buyer, productId, timestamp), modelled as an
injective pairing. -/
def accessKeyHash (buyer productId ts : Nat) : Nat :=
  Nat.pair buyer (Nat.pair productId ts)

/-- Solidity `purchaseProduct(productId)` — requires an active product, a buyer
other than the seller, and no prior purchase by this buyer; computes the
platform fee as `price * feePercent / 10000`, transfers the remainder to
the seller and the fee to the fee recipient, records the purchase with a
derived access key, marks the (buyer, product) pair purchased, and
increments the totalSales counter of the product. -/
def MarketState.purchaseProduct (s : MarketState) (caller productId now : Nat) :
    Except Err (MarketState × Nat) :=
  let product := s.products productId
  if ¬ product.isActive then .error (.require "Product not active")
  else if product.seller = caller then .error (.require "Cannot buy own product")
  else if s.hasPurchased caller productId then .error (.require "Already purchased")
  else
    let totalPrice := product.price
    let platformFee := totalPrice * s.platformFeePercent / 10000
    let sellerAmount := totalPrice - platformFee
    match s.transferFrom caller product.seller sellerAmount with
    | .error e => .error e
    | .ok sA =>
      match sA.transferFrom caller s.feeRecipient platformFee with
      | .error e => .error e
      | .ok sB =>
        let purchaseId := sB.nextPurchaseId
        let purch : Purchase :=
          { purchaseId := purchaseId, productId := productId, buyer := caller,
            seller := product.seller, price := totalPrice, timestamp := now,
            isCompleted := true, accessKey := accessKeyHash caller productId now }
        let oldProd := sB.products productId
        let newProd : DataProduct := { oldProd with totalSales := oldProd.totalSales + 1 }
        .ok ({ sB with
          nextPurchaseId := sB.nextPurchaseId + 1,
          purchases := updf sB.purchases purchaseId purch,
          userPurchases := updf sB.userPurchases caller
            (sB.userPurchases caller ++ [purchaseId]),
          hasPurchased := updf sB.hasPurchased caller
            (updf (sB.hasPurchased caller) productId true),
          products := updf sB.products productId newProd }, purchaseId)

/-- Solidity `submitReview(productId, rating, comment)` — requires a prior
purchase, a 1–5 star rating, a nonempty comment, and no earlier review
by the caller on this product; appends the review and recomputes the
stored average as `(oldRating * oldCount + rating * 100) / (oldCount + 1)`.
The product `rating * 100` is a `uint8` multiplication in the source, so
a value above 255 reverts with a checked-arithmetic panic. -/
def MarketState.submitReview (s : MarketState) (caller productId rating : Nat)
    (comment : String) (now : Nat) : Except Err MarketState :=
  if ¬ s.hasPurchased caller productId then .error (.require "Must purchase to review")
  else if ¬ (1 ≤ rating ∧ rating ≤ 5) then .error (.require "Rating must be 1-5")
  else if comment = "" then .error (.require "Comment cannot be empty")
  else if (s.productReviews productId).any (fun r => r.reviewer = caller) then
    .error (.require "Already reviewed")
  else if 255 < rating * 100 then .error .overflow
  else
    let newReview : Review :=
      { reviewer := caller, productId := productId, rating := rating,
        comment := comment, timestamp := now, isVerified := true }
    let product := s.products productId
    let totalRating := product.rating * product.reviewCount + rating * 100
    let newCount := product.reviewCount + 1
    let newProd : DataProduct :=
      { product with reviewCount := newCount, rating := totalRating / newCount }
    .ok { s with
      productReviews := updf s.productReviews productId
        (s.productReviews productId ++ [newReview]),
      products := updf s.products productId newProd }

theorem transferFrom_keeps (s s2 : MarketState) (frm dst amount : Nat)
    (h : s.transferFrom frm dst amount = .ok s2) :
    s2.products = s.products ∧ s2.hasPurchased = s.hasPurchased := by
  unfold MarketState.transferFrom at h
  split_ifs at h
  injection h with h
  subst h
  exact ⟨rfl, rfl⟩

theorem purchaseProduct_ok (s s1 : MarketState) (caller productId now pid : Nat)
    (h : s.purchaseProduct caller productId now = .ok (s1, pid)) :
    (s.products productId).isActive = true ∧
    ¬ ((s.products productId).seller = caller) ∧
    s1.products = updf s.products productId
      ({ s.products productId with
         totalSales := (s.products productId).totalSales + 1 }) ∧
    s1.hasPurchased = updf s.hasPurchased caller
      (updf (s.hasPurchased caller) productId true) := by
  unfold MarketState.purchaseProduct at h
  dsimp only at h
  split_ifs at h with h1 h2 h3
  split at h
  · exact Except.noConfusion h
  · rename_i sA hA
    split at h
    · exact Except.noConfusion h
    · rename_i sB hB
      injection h with h
      injection h with h hpid
      subst h
      obtain ⟨hpA, hhA⟩ := transferFrom_keeps _ _ _ _ _ hA
      obtain ⟨hpB, hhB⟩ := transferFrom_keeps _ _ _ _ _ hB
      refine ⟨by simpa using h1, h2, ?_, ?_⟩
      · show updf sB.products productId _ = _
        rw [hpB, hpA]
      · show updf sB.hasPurchased caller _ = _
        rw [hhB, hhA]

/-- C7: when a purchase via `purchaseProduct` succeeds, a second call by the
same buyer for the same product fails with the "Already purchased" state
error — an EVM revert, leaving the state unchanged — so the per-product
totalSales counter is incremented exactly once across the two calls. -/
theorem C7_purchase_once (s s1 : MarketState) (buyer productId now now2 pid : Nat)
    (h : s.purchaseProduct buyer productId now = .ok (s1, pid)) :
    s1.purchaseProduct buyer productId now2 =
      .error (.require "Already purchased") ∧
    (s1.products productId).totalSales = (s.products productId).totalSales + 1 := by
  obtain ⟨h1, h2, hp, hh⟩ := purchaseProduct_ok s s1 buyer productId now pid h
  constructor
  · unfold MarketState.purchaseProduct
    simp [hp, hh, updf_same, h1, h2]
  · rw [hp]
    simp [updf_same]

def marketSample : MarketState where
  products := fun p =>
    if p == 1 then ⟨1, 3, "credit data", "d", 1000, 77, true, 0, 0, 0, 0, [], "credit"⟩
    else DataProduct.empty
  purchases := fun _ => Purchase.empty
  productReviews := fun _ => []
  userPurchases := fun _ => []
  sellerProducts := fun a => if a == 3 then [1] else []
  hasPurchased := fun _ _ => false
  nextProductId := 2
  nextPurchaseId := 1
  platformFeePercent := 250
  feeRecipient := 4
  tokenBalance := fun a => if a == 2 then 2000 else 0
  tokenAllowance := fun a => if a == 2 then 2000 else 0

/-- C7 witness: buyer 2 purchases product 1 of seller 3; the second
attempt fails and totalSales moved from 0 to 1. -/
theorem C7_witness :
    ∃ r, marketSample.purchaseProduct 2 1 10 = .ok r ∧
      r.1.purchaseProduct 2 1 11 = .error (.require "Already purchased") ∧
      (r.1.products 1).totalSales = (marketSample.products 1).totalSales + 1 := by
  refine ⟨_, rfl, ?_, ?_⟩
  · exact (C7_purchase_once marketSample _ 2 1 10 11 _ rfl).1
  · exact (C7_purchase_once marketSample _ 2 1 10 11 _ rfl).2

def marketReviewSample : MarketState where
  products := fun p =>
    if p == 1 then ⟨1, 3, "credit data", "d", 1000, 77, true, 1, 0, 0, 0, [], "credit"⟩
    else DataProduct.empty
  purchases := fun _ => Purchase.empty
  productReviews := fun _ => []
  userPurchases := fun _ => []
  sellerProducts := fun a => if a == 3 then [1] else []
  hasPurchased := fun a p => a == 2 && p == 1
  nextProductId := 2
  nextPurchaseId := 2
  platformFeePercent := 250
  feeRecipient := 4
  tokenBalance := fun _ => 0
  tokenAllowance := fun _ => 0

/-- C8: on the first review of a product (stored rating 0 over 0
reviews) the claim — and the formula in the source together with its
"scaled by 100" field comment — says a 3-star review stores rating 300.
Instead the code reverts with a checked-arithmetic panic: `rating * 100`
is a `uint8` multiplication and 3 * 100 = 300 > 255.  Star values 1 and
2 fit in `uint8`; a first 2-star review does store 200 over 1 review. -/
theorem C8_submitReview_uint8_overflow :
    marketReviewSample.submitReview 2 1 3 "good" 12 = .error .overflow ∧
    (∃ s2, marketReviewSample.submitReview 2 1 2 "good" 12 = .ok s2 ∧
      (s2.products 1).rating = 200 ∧ (s2.products 1).reviewCount = 1) :=
  ⟨rfl, _, rfl, rfl, rfl⟩

/-! ## LenderPortal -/

structure LenderInfo where
  lenderAddress : Addr
  companyName : String
  licenseNumber : String
  isApproved : Bool
  isActive : Bool
  registrationDate : Nat
  totalRequests : Nat
  successfulRequests : Nat
  supportedRegions : List String
  creditLimit : Nat
  interestRate : Nat
deriving DecidableEq, Repr

def LenderInfo.empty : LenderInfo := ⟨0, "", "", false, false, 0, 0, 0, [], 0, 0⟩

structure CreditRequest where
  requestId : Nat
  lender : Addr
  borrower : Addr
  requestedAmount : Nat
  timestamp : Nat
  isProcessed : Bool
  isApproved : Bool
  creditScore : Nat
  riskAssessment : String
  approvedAmount : Nat
  interestRate : Nat
deriving DecidableEq, Repr

def CreditRequest.empty : CreditRequest := ⟨0, 0, 0, 0, 0, false, false, 0, "", 0, 0⟩

structure APIAccess where
  lender : Addr
  hasAccess : Bool
  requestLimit : Nat
  requestsUsed : Nat
  resetTime : Nat
  accessLevel : String
deriving DecidableEq, Repr

def APIAccess.empty : APIAccess := ⟨0, false, 0, 0, 0, ""⟩

structure BatchRequest where
  batchId : Nat
  lender : Addr
  borrowers : List Addr
  requestedAmounts : List Nat
  timestamp : Nat
  isProcessed : Bool
  processedCount : Nat
deriving DecidableEq, Repr

def BatchRequest.empty : BatchRequest := ⟨0, 0, [], [], 0, false, 0⟩

structure PortalState where
  lenders : Addr → LenderInfo
  creditRequests : Nat → CreditRequest
  apiAccess : Addr → APIAccess
  batchRequests : Nat → BatchRequest
  lenderRequests : Addr → List Nat
  pendingApprovals : Addr → Bool
  nextRequestId : Nat
  nextBatchId : Nat
  registrationFee : Nat
  apiRequestFee : Nat
  hasApprovedLenderRole : Addr → Bool
  portalAddress : Addr
  registry : RegState

/-- Solidity `_processCreditRequest(requestId)` — requires an unprocessed
request; reads the borrower score from the registry with the portal
contract as caller (the source wraps this in try/catch, so any registry
revert is handled locally); on a score it applies the ≥700 / ≥650 /
otherwise decision tree, on a failed lookup it records a denial with
tier "No Credit History"; either way the request ends processed. -/
def PortalState.processCreditRequest (s : PortalState) (requestId : Nat) :
    Except Err PortalState :=
  let request := s.creditRequests requestId
  if request.isProcessed then .error (.require "Already processed")
  else
    match s.registry.getScore s.portalAddress request.borrower with
    | .ok score =>
      if 700 ≤ score then
        let nr := { request with
          creditScore := score, isApproved := true,
          approvedAmount := request.requestedAmount,
          interestRate := (s.lenders request.lender).interestRate,
          riskAssessment := "Low Risk", isProcessed := true }
        let nl := { s.lenders request.lender with
          successfulRequests := (s.lenders request.lender).successfulRequests + 1 }
        .ok { s with
          creditRequests := updf s.creditRequests requestId nr,
          lenders := updf s.lenders request.lender nl }
      else if 650 ≤ score then
        let nr := { request with
          creditScore := score, isApproved := true,
          approvedAmount := request.requestedAmount / 2,
          interestRate := (s.lenders request.lender).interestRate + 200,
          riskAssessment := "Medium Risk", isProcessed := true }
        let nl := { s.lenders request.lender with
          successfulRequests := (s.lenders request.lender).successfulRequests + 1 }
        .ok { s with
          creditRequests := updf s.creditRequests requestId nr,
          lenders := updf s.lenders request.lender nl }
      else
        let nr := { request with
          creditScore := score, isApproved := false, approvedAmount := 0,
          riskAssessment := "High Risk", isProcessed := true }
        .ok { s with creditRequests := updf s.creditRequests requestId nr }
    | .error _ =>
      let nr := { request with
        creditScore := 0, isApproved := false,
        riskAssessment := "No Credit History", isProcessed := true }
      .ok { s with creditRequests := updf s.creditRequests requestId nr }

/-- The state writes `submitCreditRequest` performs before decisioning:
the lazy reset (only reached after the usage-limit check), the usage
bump, the fresh request record, and the lender bookkeeping. -/
def submitInsertState (s : PortalState) (caller borrower amount now : Nat) :
    PortalState :=
  let access := s.apiAccess caller
  let access1 :=
    if access.resetTime ≤ now then
      { access with requestsUsed := 0, resetTime := now + 2592000 }
    else access
  let access2 := { access1 with requestsUsed := access1.requestsUsed + 1 }
  let requestId := s.nextRequestId
  let nr : CreditRequest :=
    { requestId := requestId, lender := caller, borrower := borrower,
      requestedAmount := amount, timestamp := now, isProcessed := false,
      isApproved := false, creditScore := 0, riskAssessment := "",
      approvedAmount := 0, interestRate := 0 }
  let nl := { s.lenders caller with
    totalRequests := (s.lenders caller).totalRequests + 1 }
  { s with
    apiAccess := updf s.apiAccess caller access2,
    nextRequestId := s.nextRequestId + 1,
    creditRequests := updf s.creditRequests requestId nr,
    lenderRequests := updf s.lenderRequests caller
      (s.lenderRequests caller ++ [requestId]),
    lenders := updf s.lenders caller nl }

/-- Solidity `submitCreditRequest(borrower, amount)` — approved-lender role and
fee ≥ apiRequestFee; requires a nonzero borrower, a positive amount,
API access, and usage strictly below the limit — this check runs before
the lazy reset (which zeroes the counter and restarts the 30-day window
only when the stored deadline has passed); then inserts the request and
decisions it synchronously. -/
def PortalState.submitCreditRequest (s : PortalState)
    (caller borrower amount fee now : Nat) : Except Err (PortalState × Nat) :=
  if ¬ s.hasApprovedLenderRole caller then .error .missingRole
  else if fee < s.apiRequestFee then .error (.require "Insufficient API fee")
  else if borrower = 0 then .error (.require "Invalid borrower address")
  else if amount = 0 then .error (.require "Invalid amount")
  else if ¬ (s.apiAccess caller).hasAccess then .error (.require "No API access")
  else if ¬ ((s.apiAccess caller).requestsUsed < (s.apiAccess caller).requestLimit) then
    .error (.require "Request limit exceeded")
  else
    match (submitInsertState s caller borrower amount now).processCreditRequest
        s.nextRequestId with
    | .error e => .error e
    | .ok s2 => .ok (s2, s.nextRequestId)

/-- The per-item writes of the `_processBatchRequest` loop before
decisioning: allocate a request id, write the fresh record, and index
it for the lender. -/
def batchItemInsert (s : PortalState) (lender b amt nowTs : Nat) : PortalState :=
  let requestId := s.nextRequestId
  let nr : CreditRequest :=
    { requestId := requestId, lender := lender, borrower := b,
      requestedAmount := amt, timestamp := nowTs, isProcessed := false,
      isApproved := false, creditScore := 0, riskAssessment := "",
      approvedAmount := 0, interestRate := 0 }
  { s with
    nextRequestId := s.nextRequestId + 1,
    creditRequests := updf s.creditRequests requestId nr,
    lenderRequests := updf s.lenderRequests lender
      (s.lenderRequests lender ++ [requestId]) }

/-- The processedCount bump at the end of each loop iteration. -/
def batchBump (s : PortalState) (batchId : Nat) : PortalState :=
  let nb : BatchRequest := { s.batchRequests batchId with
    processedCount := (s.batchRequests batchId).processedCount + 1 }
  { s with batchRequests := updf s.batchRequests batchId nb }

/-- The `_processBatchRequest` loop over the borrower/amount pairs:
insert the record, decision it, and bump the processedCount of the batch. -/
def batchItemsLoop (lender batchId nowTs : Nat) :
    PortalState → List (Addr × Nat) → Except Err PortalState
  | s, [] => .ok s
  | s, (b, amt) :: rest =>
    match (batchItemInsert s lender b amt nowTs).processCreditRequest
        s.nextRequestId with
    | .error e => .error e
    | .ok s2 => batchItemsLoop lender batchId nowTs (batchBump s2 batchId) rest

/-- Solidity `_processBatchRequest(batchId)` — requires a not-yet-processed
batch; runs the item loop in order, then marks the batch processed and
adds the item count to the totalRequests of the lender. -/
def PortalState.processBatchRequest (s : PortalState) (batchId : Nat) :
    Except Err PortalState :=
  let batch := s.batchRequests batchId
  if batch.isProcessed then .error (.require "Already processed")
  else
    match batchItemsLoop batch.lender batchId batch.timestamp s
        (batch.borrowers.zip batch.requestedAmounts) with
    | .error e => .error e
    | .ok s1 =>
      let nb := { s1.batchRequests batchId with isProcessed := true }
      let nl := { s1.lenders batch.lender with
        totalRequests := (s1.lenders batch.lender).totalRequests +
          batch.borrowers.length }
      .ok { s1 with
        batchRequests := updf s1.batchRequests batchId nb,
        lenders := updf s1.lenders batch.lender nl }

/-- The state writes `submitBatchRequest` performs before processing:
the batch record and the usage bump by the item count (with no lazy
reset of the quota window). -/
def batchInsertState (s : PortalState) (caller : Addr)
    (borrowers : List Addr) (requestedAmounts : List Nat) (now : Nat) :
    PortalState :=
  let batchId := s.nextBatchId
  let nb : BatchRequest :=
    { batchId := batchId, lender := caller, borrowers := borrowers,
      requestedAmounts := requestedAmounts, timestamp := now,
      isProcessed := false, processedCount := 0 }
  let access := s.apiAccess caller
  let access2 := { access with
    requestsUsed := access.requestsUsed + borrowers.length }
  { s with
    nextBatchId := s.nextBatchId + 1,
    batchRequests := updf s.batchRequests batchId nb,
    apiAccess := updf s.apiAccess caller access2 }

/-- Solidity `submitBatchRequest(borrowers, requestedAmounts)` — approved-lender
role; requires equal-length arrays, at most 100 pairs, fee ≥ per-item
fee × count, API access, and `used + count ≤ limit` on the stored
counter (no lazy reset); records the batch, bumps usage, and processes
the batch synchronously. -/
def PortalState.submitBatchRequest (s : PortalState) (caller : Addr)
    (borrowers : List Addr) (requestedAmounts : List Nat) (fee now : Nat) :
    Except Err (PortalState × Nat) :=
  if ¬ s.hasApprovedLenderRole caller then .error .missingRole
  else if ¬ (borrowers.length = requestedAmounts.length) then
    .error (.require "Array length mismatch")
  else if ¬ (borrowers.length ≤ 100) then .error (.require "Batch too large")
  else if fee < s.apiRequestFee * borrowers.length then
    .error (.require "Insufficient fee")
  else if ¬ (s.apiAccess caller).hasAccess then .error (.require "No API access")
  else if ¬ ((s.apiAccess caller).requestsUsed + borrowers.length ≤
      (s.apiAccess caller).requestLimit) then
    .error (.require "Request limit exceeded")
  else
    match (batchInsertState s caller borrowers requestedAmounts now).processBatchRequest
        s.nextBatchId with
    | .error e => .error e
    | .ok s2 => .ok (s2, s.nextBatchId)

theorem processCreditRequest_fresh (s : PortalState) (rid : Nat)
    (h : (s.creditRequests rid).isProcessed = false) :
    ∃ s2, s.processCreditRequest rid = .ok s2 ∧
      s2.apiAccess = s.apiAccess ∧
      s2.nextRequestId = s.nextRequestId ∧
      s2.nextBatchId = s.nextBatchId ∧
      s2.batchRequests = s.batchRequests ∧
      s2.lenderRequests = s.lenderRequests ∧
      s2.registry = s.registry ∧
      s2.portalAddress = s.portalAddress ∧
      s2.hasApprovedLenderRole = s.hasApprovedLenderRole ∧
      s2.apiRequestFee = s.apiRequestFee ∧
      (∀ q, q ≠ rid → s2.creditRequests q = s.creditRequests q) ∧
      (s2.creditRequests rid).isProcessed = true ∧
      (s2.creditRequests rid).borrower = (s.creditRequests rid).borrower ∧
      (s2.creditRequests rid).requestedAmount = (s.creditRequests rid).requestedAmount ∧
      (s2.creditRequests rid).lender = (s.creditRequests rid).lender ∧
      (∀ score, s.registry.getScore s.portalAddress (s.creditRequests rid).borrower =
          .ok score →
        (s2.creditRequests rid).creditScore = score ∧
        (700 ≤ score →
          (s2.creditRequests rid).isApproved = true ∧
          (s2.creditRequests rid).approvedAmount =
            (s.creditRequests rid).requestedAmount ∧
          (s2.creditRequests rid).interestRate =
            (s.lenders (s.creditRequests rid).lender).interestRate ∧
          (s2.creditRequests rid).riskAssessment = "Low Risk") ∧
        (650 ≤ score → score < 700 →
          (s2.creditRequests rid).isApproved = true ∧
          (s2.creditRequests rid).approvedAmount =
            (s.creditRequests rid).requestedAmount / 2 ∧
          (s2.creditRequests rid).interestRate =
            (s.lenders (s.creditRequests rid).lender).interestRate + 200 ∧
          (s2.creditRequests rid).riskAssessment = "Medium Risk") ∧
        (score < 650 →
          (s2.creditRequests rid).isApproved = false ∧
          (s2.creditRequests rid).approvedAmount = 0 ∧
          (s2.creditRequests rid).riskAssessment = "High Risk")) ∧
      (∀ e, s.registry.getScore s.portalAddress (s.creditRequests rid).borrower =
          .error e →
        (s2.creditRequests rid).isApproved = false ∧
        (s2.creditRequests rid).approvedAmount =
          (s.creditRequests rid).approvedAmount ∧
        (s2.creditRequests rid).creditScore = 0 ∧
        (s2.creditRequests rid).riskAssessment = "No Credit History") := by
  unfold PortalState.processCreditRequest
  dsimp only
  rw [h]
  simp only [Bool.false_eq_true, if_false]
  cases hg : s.registry.getScore s.portalAddress (s.creditRequests rid).borrower with
  | ok score =>
    dsimp only
    by_cases h7 : 700 ≤ score
    · rw [if_pos h7]
      refine ⟨_, rfl, rfl, rfl, rfl, rfl, rfl, rfl, rfl, rfl, rfl, ?_, ?_, ?_, ?_, ?_, ?_, ?_⟩
      · intro q hq
        exact updf_other _ _ _ _ hq
      · simp [updf_same]
      · simp [updf_same]
      · simp [updf_same]
      · simp [updf_same]
      · intro sc hsc
        injection hsc with hsc
        subst hsc
        refine ⟨by simp [updf_same], fun _ => ?_, fun h65 h70 => absurd h7 (by omega),
          fun hlt => absurd h7 (by omega)⟩
        refine ⟨by simp [updf_same], by simp [updf_same], by simp [updf_same],
          by simp [updf_same]⟩
      · intro e he
        exact Except.noConfusion he
    · by_cases h65 : 650 ≤ score
      · rw [if_neg h7, if_pos h65]
        refine ⟨_, rfl, rfl, rfl, rfl, rfl, rfl, rfl, rfl, rfl, rfl, ?_, ?_, ?_, ?_, ?_, ?_, ?_⟩
        · intro q hq
          exact updf_other _ _ _ _ hq
        · simp [updf_same]
        · simp [updf_same]
        · simp [updf_same]
        · simp [updf_same]
        · intro sc hsc
          injection hsc with hsc
          subst hsc
          refine ⟨by simp [updf_same], fun h70 => absurd h70 h7, fun _ _ => ?_,
            fun hlt => absurd h65 (by omega)⟩
          refine ⟨by simp [updf_same], by simp [updf_same], by simp [updf_same],
            by simp [updf_same]⟩
        · intro e he
          exact Except.noConfusion he
      · rw [if_neg h7, if_neg h65]
        refine ⟨_, rfl, rfl, rfl, rfl, rfl, rfl, rfl, rfl, rfl, rfl, ?_, ?_, ?_, ?_, ?_, ?_, ?_⟩
        · intro q hq
          exact updf_other _ _ _ _ hq
        · simp [updf_same]
        · simp [updf_same]
        · simp [updf_same]
        · simp [updf_same]
        · intro sc hsc
          injection hsc with hsc
          subst hsc
          refine ⟨by simp [updf_same], fun h70 => absurd h70 h7,
            fun h65x _ => absurd h65x h65, fun _ => ?_⟩
          refine ⟨by simp [updf_same], by simp [updf_same], by simp [updf_same]⟩
        · intro e he
          exact Except.noConfusion he
  | error e =>
    dsimp only
    refine ⟨_, rfl, rfl, rfl, rfl, rfl, rfl, rfl, rfl, rfl, rfl, ?_, ?_, ?_, ?_, ?_, ?_, ?_⟩
    · intro q hq
      exact updf_other _ _ _ _ hq
    · simp [updf_same]
    · simp [updf_same]
    · simp [updf_same]
    · simp [updf_same]
    · intro sc hsc
      exact Except.noConfusion hsc
    · intro e2 he2
      refine ⟨by simp [updf_same], by simp [updf_same], by simp [updf_same],
        by simp [updf_same]⟩

/-- C1: a submission by an approved lender via `submitCreditRequest` with fee,
nonzero borrower, positive amount and quota available succeeds, and the
stored request is decisioned synchronously from the registry score:
score ≥ 700 → approved in full at the base rate of the lender, tier
"Low Risk"; 650 ≤ score < 700 → approved for half the requested amount
at base rate + 200 basis points, tier "Medium Risk"; score < 650 →
denied with approvedAmount 0, tier "High Risk"; and a failed score
lookup → denied with tier "No Credit History", the request still
recorded and processed rather than the call aborting. -/
theorem C1_submitCreditRequest_decisioning (s : PortalState)
    (caller borrower amount fee now : Nat)
    (hrole : s.hasApprovedLenderRole caller = true)
    (hfee : s.apiRequestFee ≤ fee)
    (hb : borrower ≠ 0) (ha : amount ≠ 0)
    (hacc : (s.apiAccess caller).hasAccess = true)
    (hquota : (s.apiAccess caller).requestsUsed < (s.apiAccess caller).requestLimit) :
    (∃ r, s.submitCreditRequest caller borrower amount fee now = .ok r) ∧
    (∀ s2 rid, s.submitCreditRequest caller borrower amount fee now = .ok (s2, rid) →
      rid = s.nextRequestId ∧
      (s2.creditRequests rid).isProcessed = true ∧
      (s2.creditRequests rid).borrower = borrower ∧
      (s2.creditRequests rid).requestedAmount = amount ∧
      (∀ score, s.registry.getScore s.portalAddress borrower = .ok score →
        (s2.creditRequests rid).creditScore = score ∧
        (700 ≤ score →
          (s2.creditRequests rid).isApproved = true ∧
          (s2.creditRequests rid).approvedAmount = amount ∧
          (s2.creditRequests rid).interestRate = (s.lenders caller).interestRate ∧
          (s2.creditRequests rid).riskAssessment = "Low Risk") ∧
        (650 ≤ score → score < 700 →
          (s2.creditRequests rid).isApproved = true ∧
          (s2.creditRequests rid).approvedAmount = amount / 2 ∧
          (s2.creditRequests rid).interestRate =
            (s.lenders caller).interestRate + 200 ∧
          (s2.creditRequests rid).riskAssessment = "Medium Risk") ∧
        (score < 650 →
          (s2.creditRequests rid).isApproved = false ∧
          (s2.creditRequests rid).approvedAmount = 0 ∧
          (s2.creditRequests rid).riskAssessment = "High Risk")) ∧
      (∀ e, s.registry.getScore s.portalAddress borrower = .error e →
        (s2.creditRequests rid).isApproved = false ∧
        (s2.creditRequests rid).approvedAmount = 0 ∧
        (s2.creditRequests rid).creditScore = 0 ∧
        (s2.creditRequests rid).riskAssessment = "No Credit History")) := by
  have hf2 : ¬ (fee < s.apiRequestFee) := not_lt.mpr hfee
  have hfresh : ((submitInsertState s caller borrower amount now).creditRequests
      s.nextRequestId).isProcessed = false := by
    simp [submitInsertState, updf_same]
  obtain ⟨sp, hp, hApi, hNext, hNextB, hBatch, hLR, hReg, hPortal, hRole2, hFee2,
    hOther, hProc, hBorr, hAmt, hLend, hScore, hErr⟩ :=
    processCreditRequest_fresh (submitInsertState s caller borrower amount now)
      s.nextRequestId hfresh
  have heval : s.submitCreditRequest caller borrower amount fee now =
      .ok (sp, s.nextRequestId) := by
    unfold PortalState.submitCreditRequest
    simp [hrole, hf2, hb, ha, hacc, hquota, hp]
  simp only [submitInsertState, updf_same] at hBorr hAmt hScore hErr
  constructor
  · exact ⟨_, heval⟩
  · intro s2 rid h
    rw [heval] at h
    injection h with h
    injection h with h1 h2
    subst h1
    subst h2
    exact ⟨rfl, hProc, hBorr, hAmt, hScore, hErr⟩

def portalRegistry : RegState where
  scores := fun u => if u == 7 then ⟨720, 5, 1, true, 1⟩ else CreditScore.empty
  scoreFactors := fun _ => ScoreFactors.empty
  consents := fun _ => DataConsent.empty
  lenderAccess := fun _ _ => false
  userNonces := fun _ => 0
  hasAdminRole := fun a => a == 1
  hasOracleRole := fun a => a == 1
  hasLenderRole := fun a => a == 99
  paused := false

def portalSample : PortalState where
  lenders := fun a =>
    if a == 1 then ⟨1, "Acme Lending", "LIC-1", true, true, 0, 0, 0, [], 1000000, 500⟩
    else LenderInfo.empty
  creditRequests := fun _ => CreditRequest.empty
  apiAccess := fun a =>
    if a == 1 then ⟨1, true, 100, 0, 1000, "basic"⟩ else APIAccess.empty
  batchRequests := fun _ => BatchRequest.empty
  lenderRequests := fun _ => []
  pendingApprovals := fun _ => false
  nextRequestId := 1
  nextBatchId := 1
  registrationFee := 1000000
  apiRequestFee := 10
  hasApprovedLenderRole := fun a => a == 1
  portalAddress := 99
  registry := portalRegistry

/-- C1 witness: the hypotheses hold for approved lender 1 requesting
1000 for borrower 7 at fee 10, and the submission succeeds. -/
theorem C1_witness :
    portalSample.hasApprovedLenderRole 1 = true ∧
    portalSample.apiRequestFee ≤ 10 ∧
    (portalSample.apiAccess 1).hasAccess = true ∧
    (portalSample.apiAccess 1).requestsUsed <
      (portalSample.apiAccess 1).requestLimit ∧
    (∃ r, portalSample.submitCreditRequest 1 7 1000 10 500 = .ok r) :=
  ⟨rfl, by decide, rfl, by decide,
    (C1_submitCreditRequest_decisioning portalSample 1 7 1000 10 500 rfl (by decide)
      (by decide) (by decide) rfl (by decide)).1⟩

theorem batchItemsLoop_ok (lender batchId nowTs : Nat) :
    ∀ (pairs : List (Addr × Nat)) (s : PortalState),
      ∃ s2, batchItemsLoop lender batchId nowTs s pairs = .ok s2 ∧
        s2.apiAccess = s.apiAccess ∧
        s2.nextRequestId = s.nextRequestId + pairs.length ∧
        (s2.batchRequests batchId).processedCount =
          (s.batchRequests batchId).processedCount + pairs.length ∧
        (s2.batchRequests batchId).isProcessed =
          (s.batchRequests batchId).isProcessed := by
  intro pairs
  induction pairs with
  | nil =>
    intro s
    exact ⟨s, rfl, rfl, rfl, rfl, rfl⟩
  | cons p rest ih =>
    intro s
    obtain ⟨b, amt⟩ := p
    have hfresh : ((batchItemInsert s lender b amt nowTs).creditRequests
        s.nextRequestId).isProcessed = false := by
      simp [batchItemInsert, updf_same]
    obtain ⟨sp, hp, hApi, hNext, hNextB, hBatch, hLRQ, hReg, hPortal, hRole2,
      hFee2, hOther, hProc, hBorr2, hAmt2, hLend2, hScore2, hErr2⟩ :=
      processCreditRequest_fresh (batchItemInsert s lender b amt nowTs)
        s.nextRequestId hfresh
    obtain ⟨s2, h2, iApi, iNext, iCount, iProc⟩ := ih (batchBump sp batchId)
    have heval : batchItemsLoop lender batchId nowTs s ((b, amt) :: rest) =
        batchItemsLoop lender batchId nowTs (batchBump sp batchId) rest := by
      show (match (batchItemInsert s lender b amt nowTs).processCreditRequest
          s.nextRequestId with
        | .error e => .error e
        | .ok s2 => batchItemsLoop lender batchId nowTs (batchBump s2 batchId) rest) =
        batchItemsLoop lender batchId nowTs (batchBump sp batchId) rest
      rw [hp]
    have e3 : (batchBump sp batchId).batchRequests batchId =
        { sp.batchRequests batchId with
          processedCount := (sp.batchRequests batchId).processedCount + 1 } := by
      simp [batchBump, updf_same]
    have e5 : sp.batchRequests = s.batchRequests := hBatch
    refine ⟨s2, by rw [heval, h2], ?_, ?_, ?_, ?_⟩
    · exact iApi.trans hApi
    · have e1 : s2.nextRequestId = sp.nextRequestId + rest.length := iNext
      have e2 : sp.nextRequestId = s.nextRequestId + 1 := hNext
      simp only [List.length_cons]
      omega
    · have c1 : (s2.batchRequests batchId).processedCount =
          ((batchBump sp batchId).batchRequests batchId).processedCount +
            rest.length := iCount
      rw [e3] at c1
      simp only [List.length_cons]
      rw [e5] at c1
      simp only at c1
      omega
    · have c2 : (s2.batchRequests batchId).isProcessed =
          ((batchBump sp batchId).batchRequests batchId).isProcessed := iProc
      rw [e3, e5] at c2
      exact c2

theorem processBatchRequest_fresh (s : PortalState) (batchId : Nat)
    (h : (s.batchRequests batchId).isProcessed = false) :
    ∃ s2, s.processBatchRequest batchId = .ok s2 ∧
      s2.apiAccess = s.apiAccess ∧
      (s2.batchRequests batchId).isProcessed = true ∧
      (s2.batchRequests batchId).processedCount =
        (s.batchRequests batchId).processedCount +
          ((s.batchRequests batchId).borrowers.zip
            (s.batchRequests batchId).requestedAmounts).length ∧
      s2.nextRequestId = s.nextRequestId +
        ((s.batchRequests batchId).borrowers.zip
          (s.batchRequests batchId).requestedAmounts).length := by
  obtain ⟨sL, hL, lApi, lNext, lCount, lProc⟩ :=
    batchItemsLoop_ok (s.batchRequests batchId).lender batchId
      (s.batchRequests batchId).timestamp
      ((s.batchRequests batchId).borrowers.zip
        (s.batchRequests batchId).requestedAmounts) s
  unfold PortalState.processBatchRequest
  dsimp only
  rw [h]
  simp only [Bool.false_eq_true, if_false]
  rw [hL]
  dsimp only
  refine ⟨_, rfl, lApi, ?_, ?_, lNext⟩
  · simp [updf_same]
  · simpa [updf_same] using lCount

/-- C6: `submitBatchRequest` validates fully before any mutation: a
length mismatch, an oversized batch, an insufficient fee, or an
exceeded quota each abort the call with an error — an EVM revert, so
zero credit-request records are created and no other state is mutated —
and a successful call processes every pair: the recorded batch ends
marked processed with processedCount equal to the pair count, and
exactly that many request ids are allocated. -/
theorem C6_batch_all_or_nothing (s : PortalState) (caller : Addr)
    (borrowers : List Addr) (amounts : List Nat) (fee now : Nat)
    (hrole : s.hasApprovedLenderRole caller = true) :
    (borrowers.length ≠ amounts.length →
      s.submitBatchRequest caller borrowers amounts fee now =
        .error (.require "Array length mismatch")) ∧
    (borrowers.length = amounts.length → 100 < borrowers.length →
      s.submitBatchRequest caller borrowers amounts fee now =
        .error (.require "Batch too large")) ∧
    (borrowers.length = amounts.length → borrowers.length ≤ 100 →
      fee < s.apiRequestFee * borrowers.length →
      s.submitBatchRequest caller borrowers amounts fee now =
        .error (.require "Insufficient fee")) ∧
    (borrowers.length = amounts.length → borrowers.length ≤ 100 →
      s.apiRequestFee * borrowers.length ≤ fee →
      (s.apiAccess caller).hasAccess = true →
      (s.apiAccess caller).requestLimit <
        (s.apiAccess caller).requestsUsed + borrowers.length →
      s.submitBatchRequest caller borrowers amounts fee now =
        .error (.require "Request limit exceeded")) ∧
    (∀ s2 bid, s.submitBatchRequest caller borrowers amounts fee now =
        .ok (s2, bid) →
      bid = s.nextBatchId ∧
      (s2.batchRequests bid).isProcessed = true ∧
      (s2.batchRequests bid).processedCount = borrowers.length ∧
      s2.nextRequestId = s.nextRequestId + borrowers.length) := by
  refine ⟨?_, ?_, ?_, ?_, ?_⟩
  · intro hne
    unfold PortalState.submitBatchRequest
    simp [hrole, hne]
  · intro hlen hgt
    have hgt2 : ¬ (amounts.length ≤ 100) := by omega
    unfold PortalState.submitBatchRequest
    simp [hrole, hlen, hgt2]
  · intro hlen hle hfee
    have hle2 : amounts.length ≤ 100 := by omega
    have hfee2 := hfee
    rw [hlen] at hfee2
    unfold PortalState.submitBatchRequest
    simp [hrole, hlen, hle2, hfee2]
  · intro hlen hle hfee hacc hq
    have hle2 : amounts.length ≤ 100 := by omega
    have hfee2 := hfee
    rw [hlen] at hfee2
    have hq2 := hq
    rw [hlen] at hq2
    unfold PortalState.submitBatchRequest
    simp [hrole, hlen, hle2, not_lt.mpr hfee2, hacc, Nat.not_le.mpr hq2]
  · intro s2 bid h
    unfold PortalState.submitBatchRequest at h
    split_ifs at h with h1 h2 h3 h4 h5
    have hlen : borrowers.length = amounts.length := by
      by_contra hc
      simp [hc] at h1
    have hfresh : ((batchInsertState s caller borrowers amounts now).batchRequests
        s.nextBatchId).isProcessed = false := by
      simp [batchInsertState, updf_same]
    obtain ⟨sB, hB, bApi, bProc, bCount, bNext⟩ :=
      processBatchRequest_fresh (batchInsertState s caller borrowers amounts now)
        s.nextBatchId hfresh
    rw [hB] at h
    dsimp only at h
    injection h with h
    injection h with ha hb
    subst ha
    subst hb
    have hzip : ((batchInsertState s caller borrowers amounts now).batchRequests
        s.nextBatchId).borrowers.zip
          ((batchInsertState s caller borrowers amounts now).batchRequests
            s.nextBatchId).requestedAmounts = borrowers.zip amounts := by
      simp [batchInsertState, updf_same]
    have hziplen : (borrowers.zip amounts).length = borrowers.length := by
      rw [List.length_zip, hlen, min_self]
    refine ⟨rfl, bProc, ?_, ?_⟩
    · rw [bCount, hzip, hziplen]
      simp [batchInsertState, updf_same]
    · rw [bNext, hzip, hziplen]
      rfl

/-- C6 witness: a batch with two borrowers but one amount fails with the
length-mismatch error; a well-formed one-item batch is fully processed. -/
theorem C6_witness :
    portalSample.hasApprovedLenderRole 1 = true ∧
    portalSample.submitBatchRequest 1 [7, 8] [100] 100 500 =
      .error (.require "Array length mismatch") ∧
    (∀ s2 bid, portalSample.submitBatchRequest 1 [7] [100] 100 500 = .ok (s2, bid) →
      bid = portalSample.nextBatchId ∧
      (s2.batchRequests bid).isProcessed = true ∧
      (s2.batchRequests bid).processedCount = 1 ∧
      s2.nextRequestId = portalSample.nextRequestId + 1) :=
  ⟨rfl,
    (C6_batch_all_or_nothing portalSample 1 [7, 8] [100] 100 500 rfl).1 (by decide),
    (C6_batch_all_or_nothing portalSample 1 [7] [100] 100 500 rfl).2.2.2.2⟩

def portalQuotaSample : PortalState :=
  { portalSample with
    apiAccess := fun a =>
      if a == 1 then ⟨1, true, 100, 100, 50, "basic"⟩ else APIAccess.empty }

/-- C3 counterexample: lender 1 has recorded usage 100 of limit 100 and
the reset deadline 50 has already passed at call time 60, with every
other precondition satisfied; the claim says the lazy reset applies
before the limit check so the call succeeds, but `submitCreditRequest`
reverts with "Request limit exceeded". -/
theorem C3_counterexample :
    (portalQuotaSample.apiAccess 1).requestsUsed =
      (portalQuotaSample.apiAccess 1).requestLimit ∧
    (portalQuotaSample.apiAccess 1).resetTime ≤ 60 ∧
    portalQuotaSample.hasApprovedLenderRole 1 = true ∧
    (portalQuotaSample.apiAccess 1).hasAccess = true ∧
    portalQuotaSample.submitCreditRequest 1 7 1000 10 60 =
      .error (.require "Request limit exceeded") :=
  ⟨rfl, by decide, rfl, rfl, rfl⟩

/-- C3 (amended): the quota reset is lazy but runs only after the
usage-limit check in `submitCreditRequest`: with the stored usage at
the limit the call fails even though the reset deadline has passed;
with usage below the limit the counter is reset, so the call succeeds
with usage 1 and a fresh 30-day window.  `submitBatchRequest` performs
no reset at all: it enforces `used + n ≤ limit` on the stale counter
and leaves the stored deadline unchanged. -/
theorem C3_amended_lazy_reset (s : PortalState) (caller borrower amount fee now : Nat)
    (hrole : s.hasApprovedLenderRole caller = true)
    (hfee : s.apiRequestFee ≤ fee)
    (hb : borrower ≠ 0) (ha : amount ≠ 0)
    (hacc : (s.apiAccess caller).hasAccess = true)
    (hreset : (s.apiAccess caller).resetTime ≤ now) :
    ((s.apiAccess caller).requestLimit ≤ (s.apiAccess caller).requestsUsed →
      s.submitCreditRequest caller borrower amount fee now =
        .error (.require "Request limit exceeded")) ∧
    ((s.apiAccess caller).requestsUsed < (s.apiAccess caller).requestLimit →
      ∃ r, s.submitCreditRequest caller borrower amount fee now = .ok r ∧
        (r.1.apiAccess caller).requestsUsed = 1 ∧
        (r.1.apiAccess caller).resetTime = now + 2592000) ∧
    (∀ (borrowers : List Addr) (amounts : List Nat) (fee2 : Nat),
      borrowers.length = amounts.length → borrowers.length ≤ 100 →
      s.apiRequestFee * borrowers.length ≤ fee2 →
      (s.apiAccess caller).requestsUsed + borrowers.length ≤
        (s.apiAccess caller).requestLimit →
      ∃ r, s.submitBatchRequest caller borrowers amounts fee2 now = .ok r ∧
        (r.1.apiAccess caller).requestsUsed =
          (s.apiAccess caller).requestsUsed + borrowers.length ∧
        (r.1.apiAccess caller).resetTime = (s.apiAccess caller).resetTime) := by
  have hf2 : ¬ (fee < s.apiRequestFee) := not_lt.mpr hfee
  refine ⟨?_, ?_, ?_⟩
  · intro hge
    unfold PortalState.submitCreditRequest
    simp [hrole, hf2, hb, ha, hacc, Nat.not_lt.mpr hge]
  · intro hquota
    have hfresh : ((submitInsertState s caller borrower amount now).creditRequests
        s.nextRequestId).isProcessed = false := by
      simp [submitInsertState, updf_same]
    obtain ⟨sp, hp, hApi, hNext, hNextB, hBatch, hLR, hReg, hPortal, hRole2, hFee2,
      hOther, hProc, hBorr, hAmt, hLend, hScore, hErr⟩ :=
      processCreditRequest_fresh (submitInsertState s caller borrower amount now)
        s.nextRequestId hfresh
    have heval : s.submitCreditRequest caller borrower amount fee now =
        .ok (sp, s.nextRequestId) := by
      unfold PortalState.submitCreditRequest
      simp [hrole, hf2, hb, ha, hacc, hquota, hp]
    refine ⟨(sp, s.nextRequestId), heval, ?_, ?_⟩
    · rw [show (sp, s.nextRequestId).1.apiAccess = sp.apiAccess from rfl, hApi]
      simp [submitInsertState, updf_same, hreset]
    · rw [show (sp, s.nextRequestId).1.apiAccess = sp.apiAccess from rfl, hApi]
      simp [submitInsertState, updf_same, hreset]
  · intro borrowers amounts fee2 hlen hle hfee2 hq
    have hfresh : ((batchInsertState s caller borrowers amounts now).batchRequests
        s.nextBatchId).isProcessed = false := by
      simp [batchInsertState, updf_same]
    obtain ⟨sB, hB, bApi, bProc, bCount, bNext⟩ :=
      processBatchRequest_fresh (batchInsertState s caller borrowers amounts now)
        s.nextBatchId hfresh
    have hle2 : amounts.length ≤ 100 := by omega
    have hfee3 := hfee2
    rw [hlen] at hfee3
    have hq2 := hq
    rw [hlen] at hq2
    have heval : s.submitBatchRequest caller borrowers amounts fee2 now =
        .ok (sB, s.nextBatchId) := by
      unfold PortalState.submitBatchRequest
      simp [hrole, hlen, hle2, not_lt.mpr hfee3, hacc, hq2, hB]
    refine ⟨(sB, s.nextBatchId), heval, ?_, ?_⟩
    · rw [show (sB, s.nextBatchId).1.apiAccess = sB.apiAccess from rfl, bApi]
      simp [batchInsertState, updf_same]
    · rw [show (sB, s.nextBatchId).1.apiAccess = sB.apiAccess from rfl, bApi]
      simp [batchInsertState, updf_same]

/-- C3 witness: at the sample state lender 1 has used 0 of 100 and the
deadline 1000 has passed by time 2000; the submission succeeds with the
counter reset to 0 plus the new usage and a fresh window. -/
theorem C3_witness :
    (portalSample.apiAccess 1).resetTime ≤ 2000 ∧
    (portalSample.apiAccess 1).requestsUsed <
      (portalSample.apiAccess 1).requestLimit ∧
    (∃ r, portalSample.submitCreditRequest 1 7 1000 10 2000 = .ok r ∧
      (r.1.apiAccess 1).requestsUsed = 1 ∧
      (r.1.apiAccess 1).resetTime = 2000 + 2592000) :=
  ⟨by decide, by decide,
    (C3_amended_lazy_reset portalSample 1 7 1000 10 2000 rfl (by decide) (by decide)
      (by decide) rfl (by decide)).2.1 (by decide)⟩
